import Mathlib

/-!
Verification of the theme-switching script in `src/static/script.js` of the
vjcbot-ai-student-assistant repository.

The script manages a light/dark visual theme: it resolves the preferred theme
from durable storage (localStorage key `theme`) or the platform color-scheme
signal, applies it to the document root attribute `data-bs-theme` and to the
class of the toggle icon, and binds a click handler that flips the theme.

We embed the script shallowly: the mutable environment (storage value,
platform signal, the DOM pieces the script touches) is a record, and each
function of the script is a pure state transformer translated line by line.
-/

namespace VjcTheme

/-- The parts of the DOM that the script reads or mutates:
the `data-bs-theme` attribute of `document.documentElement` (null when never
set), whether `document.querySelector` of the icon path `#themeToggle i`
finds an element, that element's `className` (null when never set), and
whether `document.getElementById` of `themeToggle` finds the toggle button. -/
structure DomState where
  rootAttr : Option String
  iconPresent : Bool
  iconClass : Option String
  togglePresent : Bool
  deriving DecidableEq

/-- The whole mutable environment of the script: the localStorage value under
the key `theme` (null when absent), the boolean match result of the media
query for a dark color-scheme, and the DOM. -/
structure SysState where
  store : Option String
  prefersDark : Bool
  dom : DomState
  deriving DecidableEq

/-- `const getStoredTheme = () => localStorage.getItem('theme');`
`getItem` returns the stored string or null. -/
def getStoredTheme (s : SysState) : Option String :=
  s.store

/-- `const setStoredTheme = theme => localStorage.setItem('theme', theme);` -/
def setStoredTheme (theme : String) (s : SysState) : SysState :=
  { s with store := some theme }

/-- JavaScript truthiness of a nullable string: null is falsy, the empty
string is falsy, every other string is truthy. -/
def truthy : Option String → Bool
  | none => false
  | some str => !str.isEmpty

/-- `getPreferredTheme`, translated with explicit state passing so that its
effect on the state is part of the definition:
reads the stored theme; if truthy, returns it; otherwise returns `dark`
when the platform signal matches dark, else `light`. It performs no write. -/
def getPreferredThemeS (s : SysState) : String × SysState :=
  let storedTheme := getStoredTheme s
  if truthy storedTheme then
    (storedTheme.getD "", s)
  else
    ((if s.prefersDark then "dark" else "light"), s)

/-- The value `getPreferredTheme()` returns. -/
def getPreferredTheme (s : SysState) : String :=
  (getPreferredThemeS s).1

/-- The class string the script assigns to the icon when the theme is dark. -/
def sunIconClass : String :=
  "bi bi-sun-fill fs-5"

/-- The class string the script assigns to the icon otherwise. -/
def moonIconClass : String :=
  "bi bi-moon-stars-fill fs-5"

/-- `setTheme`: sets the `data-bs-theme` attribute on the document root to
`theme`, then looks up the icon element `#themeToggle i`; if found, assigns
its class: the sun set when `theme === 'dark'`, the moon set otherwise. -/
def setTheme (theme : String) (d : DomState) : DomState :=
  let d1 : DomState := { d with rootAttr := some theme }
  if d1.iconPresent then
    if theme = "dark" then
      { d1 with iconClass := some sunIconClass }
    else
      { d1 with iconClass := some moonIconClass }
  else
    d1

/-- Invoking a member on a possibly-null JavaScript reference: on null it
raises a TypeError, otherwise the action yields its value. -/
def jsMember {α : Type} (ref : Option Unit) (act : α) : Except String α :=
  match ref with
  | some _ => Except.ok act
  | none => Except.error "TypeError: null reference"

/-- Whether an `Except` computation completed without raising. -/
def exceptOk {α : Type} : Except String α → Bool
  | Except.ok _ => true
  | Except.error _ => false

/-- `setTheme` with exceptions made explicit: the class assignment is a
member access on the looked-up icon reference, guarded by the null check
`if (toggleBtn)` exactly as in the source. -/
def setThemeE (theme : String) (d : DomState) : Except String DomState :=
  let d1 : DomState := { d with rootAttr := some theme }
  let toggleBtn : Option Unit := if d1.iconPresent then some () else none
  if toggleBtn.isSome then
    if theme = "dark" then
      jsMember toggleBtn { d1 with iconClass := some sunIconClass }
    else
      jsMember toggleBtn { d1 with iconClass := some moonIconClass }
  else
    Except.ok d1

/-- The `DOMContentLoaded` handler with exceptions made explicit: looks up
the toggle button by id; if found, `addEventListener` (a member access on
the reference) binds the click handler. Returns whether a listener was
bound. -/
def domContentLoadedHandler (s : SysState) : Except String Bool :=
  let toggleBtn : Option Unit := if s.dom.togglePresent then some () else none
  if toggleBtn.isSome then
    jsMember toggleBtn true
  else
    Except.ok false

/-- The click handler bound to the toggle button: reads the current
`data-bs-theme` attribute of the root, computes
`currentTheme === 'dark' ? 'light' : 'dark'`, writes it to storage and
applies it with `setTheme`. -/
def clickHandler (s : SysState) : SysState :=
  let currentTheme := s.dom.rootAttr
  let newTheme := if currentTheme = some "dark" then "light" else "dark"
  let s1 := setStoredTheme newTheme s
  { s1 with dom := setTheme newTheme s1.dom }

/-- The eager load-time line `setTheme(getPreferredTheme());`. -/
def initLoad (s : SysState) : SysState :=
  let r := getPreferredThemeS s
  { r.2 with dom := setTheme r.1 r.2.dom }

/-- The lifetime of the page: the load-time application followed by `n`
clicks of the toggle. -/
def lifetime (s : SysState) : Nat → SysState
  | 0 => initLoad s
  | n + 1 => clickHandler (lifetime s n)

/- ### Helper lemmas -/

theorem setTheme_rootAttr (theme : String) (d : DomState) :
    (setTheme theme d).rootAttr = some theme := by
  unfold setTheme
  by_cases hi : d.iconPresent <;> by_cases ht : theme = "dark" <;>
    simp [hi, ht]

theorem clickHandler_rootAttr (s : SysState) :
    (clickHandler s).dom.rootAttr =
      some (if s.dom.rootAttr = some "dark" then "light" else "dark") := by
  unfold clickHandler setStoredTheme
  exact setTheme_rootAttr _ _

theorem clickHandler_store (s : SysState) :
    (clickHandler s).store =
      some (if s.dom.rootAttr = some "dark" then "light" else "dark") := by
  unfold clickHandler setStoredTheme setTheme
  by_cases hc : s.dom.rootAttr = some "dark" <;> simp [hc]

/- ### C1 -/

/-- C1: For every prior state of the Store, if a Stored Preference (a Theme
variant) is present then `getPreferredTheme` returns that Stored Preference,
regardless of the Platform Signal value (override dominance). -/
theorem getPreferredTheme_override (s : SysState) (t : String)
    (hs : s.store = some t) (ht : t = "light" ∨ t = "dark") :
    getPreferredTheme s = t := by
  unfold getPreferredTheme getPreferredThemeS getStoredTheme
  rcases ht with h | h <;> subst h <;> simp [hs, truthy] <;> rfl

/-- C1 witness: with `dark` stored and a platform signal of not-dark, the
resolver returns `dark`. -/
theorem getPreferredTheme_override_witness :
    getPreferredTheme
      { store := some "dark", prefersDark := false,
        dom := { rootAttr := none, iconPresent := false,
                 iconClass := none, togglePresent := false } } = "dark" :=
  getPreferredTheme_override _ "dark" rfl (Or.inr rfl)

/- ### C2 -/

/-- A state whose Store holds a corrupt non-empty string. -/
def corruptState : SysState :=
  { store := some "purple", prefersDark := false,
    dom := { rootAttr := none, iconPresent := true,
             iconClass := none, togglePresent := true } }

/-- C2 counterexample: with the corrupt string `purple` in the Store, the
load-time application of `getPreferredTheme()` leaves the root attribute at
`purple`, which is neither of the two Theme variants. -/
theorem appliedTheme_invariant_counterexample :
    ¬ ((initLoad corruptState).dom.rootAttr = some "light" ∨
       (initLoad corruptState).dom.rootAttr = some "dark") := by
  decide

/-- When the Store holds a Theme variant, the empty string, or nothing, the
resolver yields a Theme variant. -/
theorem getPreferredTheme_valid (s : SysState)
    (hs : s.store = none ∨ s.store = some "" ∨
          s.store = some "light" ∨ s.store = some "dark") :
    getPreferredTheme s = "light" ∨ getPreferredTheme s = "dark" := by
  unfold getPreferredTheme getPreferredThemeS getStoredTheme
  rcases hs with h | h | h | h <;> simp [h, truthy] <;>
    by_cases hp : s.prefersDark <;> simp [hp] <;>
    first
    | exact Or.inl rfl
    | exact Or.inr rfl

/-- C2 (amended): provided the Store held a Theme variant, the empty string,
or nothing at load, the Applied Theme is one of the two Theme variants at
every point of the lifetime — after the initial load-time application of
`getPreferredTheme()` and after every subsequent click. -/
theorem appliedTheme_invariant (s : SysState) (n : Nat)
    (hs : s.store = none ∨ s.store = some "" ∨
          s.store = some "light" ∨ s.store = some "dark") :
    (lifetime s n).dom.rootAttr = some "light" ∨
    (lifetime s n).dom.rootAttr = some "dark" := by
  induction n with
  | zero =>
      have h := getPreferredTheme_valid s hs
      unfold getPreferredTheme at h
      rcases h with h | h <;> simp [lifetime, initLoad, setTheme_rootAttr, h]
  | succ n ih =>
      rcases ih with h | h <;>
        simp [lifetime, clickHandler_rootAttr, h]

/-- C2 witness (for the amended claim): a fresh dark-signal session applies a
Theme variant at load and after one click. -/
theorem appliedTheme_invariant_witness :
    (lifetime ⟨none, true, ⟨none, true, none, true⟩⟩ 1).dom.rootAttr =
        some "light" ∨
    (lifetime ⟨none, true, ⟨none, true, none, true⟩⟩ 1).dom.rootAttr =
        some "dark" :=
  appliedTheme_invariant _ 1 (Or.inl rfl)

/- ### C3 -/

/-- C3: `setTheme t` always writes `t` to the root attribute; when the icon
element is found its class becomes the sun set exactly when `t = dark` and
the moon set for any non-dark value; when it is not found, the icon class is
untouched and nothing else changes. -/
theorem setTheme_spec (t : String) (d : DomState) :
    (setTheme t d).rootAttr = some t ∧
    (setTheme t d).iconClass =
      (if d.iconPresent then
        (if t = "dark" then some sunIconClass else some moonIconClass)
      else d.iconClass) ∧
    (setTheme t d).iconPresent = d.iconPresent ∧
    (setTheme t d).togglePresent = d.togglePresent := by
  unfold setTheme
  by_cases hi : d.iconPresent <;> by_cases ht : t = "dark" <;> simp [hi, ht]

/- ### C4 -/

/-- C4: every click writes the flip of the current Applied Theme (dark maps
to light, anything else maps to dark) to both the Store and the root
attribute, so both agree after every click; starting from Applied Theme
light, one click yields dark/dark and a second returns to light/light. -/
theorem click_consistency (s : SysState) :
    (clickHandler s).store =
      some (if s.dom.rootAttr = some "dark" then "light" else "dark") ∧
    (clickHandler s).dom.rootAttr = (clickHandler s).store ∧
    (s.dom.rootAttr = some "light" →
      (clickHandler s).dom.rootAttr = some "dark" ∧
      (clickHandler s).store = some "dark" ∧
      (clickHandler (clickHandler s)).dom.rootAttr = some "light" ∧
      (clickHandler (clickHandler s)).store = some "light") := by
  refine ⟨clickHandler_store s, ?_, ?_⟩
  · rw [clickHandler_rootAttr, clickHandler_store]
  · intro h
    simp [clickHandler_rootAttr, clickHandler_store, h]

/-- A state whose Applied Theme is `light`. -/
def lightState : SysState :=
  ⟨none, false, ⟨some "light", true, none, true⟩⟩

/-- C4 witness: the light → dark → light round trip on a concrete state. -/
theorem click_consistency_witness :
    (clickHandler lightState).dom.rootAttr = some "dark" ∧
    (clickHandler lightState).store = some "dark" ∧
    (clickHandler (clickHandler lightState)).dom.rootAttr = some "light" ∧
    (clickHandler (clickHandler lightState)).store = some "light" :=
  (click_consistency lightState).2.2 rfl

/- ### C5 -/

/-- C5: when the Stored Preference is absent, `getPreferredTheme` returns
`dark` exactly when the Platform Signal indicates dark, and `light`
otherwise. -/
theorem getPreferredTheme_fallback (s : SysState) (hs : s.store = none) :
    getPreferredTheme s = (if s.prefersDark then "dark" else "light") := by
  unfold getPreferredTheme getPreferredThemeS getStoredTheme
  simp [hs, truthy]

/-- C5 witness: empty Store with a dark platform signal resolves to dark. -/
theorem getPreferredTheme_fallback_witness :
    getPreferredTheme ⟨none, true, ⟨none, false, none, false⟩⟩ = "dark" :=
  getPreferredTheme_fallback _ rfl

/- ### C6 -/

/-- C6: `setTheme` is idempotent — applying it twice with the same theme
leaves the DOM exactly as one application does. -/
theorem setTheme_idempotent (t : String) (d : DomState) :
    setTheme t (setTheme t d) = setTheme t d := by
  unfold setTheme
  by_cases hi : d.iconPresent <;> by_cases ht : t = "dark" <;> simp [hi, ht]

/- ### C7 -/

/-- C7: absence of either optional DOM element is never an error: the
parsed-document handler always completes, skipping the binding when the
toggle button is missing; `setThemeE` always completes, and when the icon is
missing it still sets the root attribute and changes nothing else. -/
theorem missing_element_resilience (s : SysState) (t : String) (d : DomState) :
    exceptOk (domContentLoadedHandler s) = true ∧
    (s.dom.togglePresent = false →
      domContentLoadedHandler s = Except.ok false) ∧
    exceptOk (setThemeE t d) = true ∧
    (d.iconPresent = false →
      setThemeE t d = Except.ok { d with rootAttr := some t }) := by
  refine ⟨?_, ?_, ?_, ?_⟩
  · unfold domContentLoadedHandler jsMember exceptOk
    by_cases hb : s.dom.togglePresent <;> simp [hb]
  · intro hb
    unfold domContentLoadedHandler
    simp [hb]
  · unfold setThemeE jsMember exceptOk
    by_cases hi : d.iconPresent <;> by_cases ht : t = "dark" <;> simp [hi, ht]
  · intro hi
    unfold setThemeE
    simp [hi]

/-- C7 witness: with both elements missing, binding is skipped without error
and `setThemeE` still sets the root attribute. -/
theorem missing_element_resilience_witness :
    domContentLoadedHandler ⟨none, false, ⟨none, false, none, false⟩⟩ =
      Except.ok false ∧
    setThemeE "dark" ⟨none, false, none, false⟩ =
      Except.ok ⟨some "dark", false, none, false⟩ :=
  ⟨(missing_element_resilience ⟨none, false, ⟨none, false, none, false⟩⟩
      "dark" ⟨none, false, none, false⟩).2.1 rfl,
   (missing_element_resilience ⟨none, false, ⟨none, false, none, false⟩⟩
      "dark" ⟨none, false, none, false⟩).2.2.2 rfl⟩

/- ### C8 -/

/-- C8: the resolver never writes the Store (its output state is the input
state), repeated calls with no intervening mutation return the same result,
and when the Store starts absent it is still absent after the whole load
path (resolution plus the first `setTheme` call). -/
theorem getPreferredTheme_frame (s : SysState) :
    (getPreferredThemeS s).2 = s ∧
    getPreferredTheme (getPreferredThemeS s).2 = getPreferredTheme s ∧
    (s.store = none → (initLoad s).store = none) := by
  have h2 : (getPreferredThemeS s).2 = s := by
    unfold getPreferredThemeS getStoredTheme
    by_cases hb : truthy s.store <;> simp [hb]
  refine ⟨h2, by rw [h2], ?_⟩
  intro hs
  simp [initLoad, h2, hs]

/-- C8 witness: a fresh session keeps the Store absent through the load
path. -/
theorem getPreferredTheme_frame_witness :
    (initLoad ⟨none, true, ⟨none, true, none, true⟩⟩).store = none :=
  (getPreferredTheme_frame ⟨none, true, ⟨none, true, none, true⟩⟩).2.2 rfl

/- ### C9 -/

/-- C9: an empty string stored under the theme key fails the truthiness
check, so the resolver falls through to the Platform Signal path, behaving
exactly as with an absent Store. -/
theorem emptyString_treated_absent (s : SysState) (hs : s.store = some "") :
    getPreferredTheme s = (if s.prefersDark then "dark" else "light") ∧
    getPreferredTheme s = getPreferredTheme { s with store := none } := by
  unfold getPreferredTheme getPreferredThemeS getStoredTheme
  simp [hs, truthy]
  rfl

/-- C9 witness: empty string stored, dark signal: the resolver returns dark,
the same as with an absent Store. -/
theorem emptyString_treated_absent_witness :
    getPreferredTheme ⟨some "", true, ⟨none, false, none, false⟩⟩ = "dark" ∧
    getPreferredTheme ⟨some "", true, ⟨none, false, none, false⟩⟩ =
      getPreferredTheme ⟨none, true, ⟨none, false, none, false⟩⟩ :=
  emptyString_treated_absent ⟨some "", true, ⟨none, false, none, false⟩⟩ rfl

/- ### C10 -/

/-- C10: whatever the root attribute holds at click time — absent or an
arbitrary corrupt string — the value the click handler writes to the Store
is a valid Theme variant, so a single click repairs a corrupt Stored
Preference. -/
theorem click_writes_valid_theme (s : SysState) :
    (clickHandler s).store = some "light" ∨
    (clickHandler s).store = some "dark" := by
  rw [clickHandler_store]
  by_cases hc : s.dom.rootAttr = some "dark" <;> simp [hc]

end VjcTheme
